import Mathlib

/-!
Shallow embedding of the appointment-lifecycle component of the Hills Clinic
booking system (src/booking/models.py, src/staff/views.py, src/portal/views.py).

Datetimes are modelled as minutes since an epoch (`Int`): a calendar date is a
day number, a time of day is minutes within the day, and `datetime.combine`
becomes `1440 * date + time`.  The one-hour grace window is 60 minutes.
Django foreign keys are modelled by embedding the referenced record; slot
identity for counting bookings is by the slot's `id` field.
-/

namespace HillsClinic

/-- Appointment scheduling status (`Appointment.status` choices). -/
inductive Status
  | pending
  | confirmed
  | cancelled
  | completed
  | noShow
  deriving DecidableEq, Repr

/-- Payment status (`Appointment.PAYMENT_STATUS_CHOICES`). -/
inductive PaymentStatus
  | pending
  | submitted
  | verified
  | failed
  | refunded
  deriving DecidableEq, Repr

/-- `TimeSlot` model fields relevant to the lifecycle component. -/
structure TimeSlot where
  id : Nat
  date : Int
  startTime : Int
  endTime : Int
  is_available : Bool
  max_bookings : Int
  deriving DecidableEq, Repr

/-- `Appointment` model fields relevant to the lifecycle component. -/
structure Appointment where
  status : Status
  payment_status : PaymentStatus
  payment_deadline : Option Int
  time_slot : Option TimeSlot
  doctor_notes : String
  payment_method : String
  payment_proof : Option String
  payment_confirmed_by : Option Nat
  payment_confirmed_at : Option Int
  payment_notes : String
  deriving DecidableEq, Repr

/-- Does appointment `a` reference slot `s` (foreign-key comparison by id)? -/
def references (a : Appointment) (s : TimeSlot) : Bool :=
  match a.time_slot with
  | some t => decide (t.id = s.id)
  | none => false

/-- `status__in=['confirmed', 'pending']` filter used by `current_bookings`. -/
def countsTowardBooking (a : Appointment) : Bool :=
  decide (a.status = Status.confirmed ∨ a.status = Status.pending)

/-- `TimeSlot.current_bookings`: count of appointments referencing this slot
with status confirmed or pending. -/
def current_bookings (appts : List Appointment) (s : TimeSlot) : Nat :=
  (appts.filter fun a => references a s && countsTowardBooking a).length

/-- `TimeSlot.is_full`: `current_bookings >= max_bookings`. -/
def is_full (appts : List Appointment) (s : TimeSlot) : Bool :=
  decide ((current_bookings appts s : Int) ≥ s.max_bookings)

/-- `Appointment.is_payment_overdue`: false when payment is verified,
otherwise true exactly when a deadline is set and `now` is past it. -/
def is_payment_overdue (now : Int) (a : Appointment) : Bool :=
  if a.payment_status = PaymentStatus.verified then false
  else
    match a.payment_deadline with
    | some d => decide (now > d)
    | none => false

/-- The audit note `cancel_if_unpaid` appends to `doctor_notes`. -/
def autoCancelNote : String := "\n[Auto-cancelled: Payment deadline expired]"

/-- `Appointment.cancel_if_unpaid`: cancel and note when the payment is
overdue and the status is neither cancelled nor completed; returns whether a
cancellation took place. -/
def cancel_if_unpaid (now : Int) (a : Appointment) : Appointment × Bool :=
  if is_payment_overdue now a = true
      ∧ a.status ≠ Status.cancelled ∧ a.status ≠ Status.completed then
    ({ a with status := Status.cancelled,
              doctor_notes := a.doctor_notes ++ autoCancelNote }, true)
  else (a, false)

/-- Minutes-since-epoch datetime of the slot's end
(`datetime.combine(slot.date, slot.end_time)`). -/
def slotEndDatetime (s : TimeSlot) : Int := 1440 * s.date + s.endTime

/-- The one-hour grace window (`timedelta(hours=1)`), in minutes. -/
def graceMinutes : Int := 60

/-- `Appointment.is_past_appointment`: true when a slot is attached and `now`
is past the slot's end plus the one-hour grace window. -/
def is_past_appointment (now : Int) (a : Appointment) : Bool :=
  match a.time_slot with
  | none => false
  | some s => decide (now > slotEndDatetime s + graceMinutes)

/-- `Appointment.complete_if_past`: complete a confirmed appointment whose
time has passed; returns whether a completion took place. -/
def complete_if_past (now : Int) (a : Appointment) : Appointment × Bool :=
  if a.status = Status.confirmed ∧ is_past_appointment now a = true then
    ({ a with status := Status.completed }, true)
  else (a, false)

/-- Row predicate of the sweep's bulk cancellation
(`filter(status__in=['pending', 'confirmed'], payment_deadline__lt=now,
payment_status__in=['pending', 'submitted', 'failed'])`). -/
def sweepCancelPred (now : Int) (a : Appointment) : Bool :=
  decide (a.status = Status.pending ∨ a.status = Status.confirmed)
  && (match a.payment_deadline with
      | some d => decide (d < now)
      | none => false)
  && decide (a.payment_status = PaymentStatus.pending
      ∨ a.payment_status = PaymentStatus.submitted
      ∨ a.payment_status = PaymentStatus.failed)

/-- Row predicate of the sweep's completion pass: confirmed, slot attached,
and `now > slot_end + timedelta(hours=1)`. -/
def sweepCompletePred (now : Int) (a : Appointment) : Bool :=
  decide (a.status = Status.confirmed)
  && (match a.time_slot with
      | some s => decide (now > slotEndDatetime s + graceMinutes)
      | none => false)

/-- Effect of the bulk cancellation update on one row. -/
def cancelStep (now : Int) (a : Appointment) : Appointment :=
  if sweepCancelPred now a then { a with status := Status.cancelled } else a

/-- Effect of the completion pass on one row. -/
def completeStep (now : Int) (a : Appointment) : Appointment :=
  if sweepCompletePred now a then { a with status := Status.completed } else a

/-- Result of `Appointment.auto_update_statuses`: the updated table and the
returned `{'unpaid_cancelled': ..., 'past_completed': ...}` counts. -/
structure SweepResult where
  appointments : List Appointment
  unpaid_cancelled : Nat
  past_completed : Nat
  deriving DecidableEq, Repr

/-- `Appointment.auto_update_statuses` (the sweep): bulk-cancel overdue unpaid
pending/confirmed rows, then complete past confirmed slotted rows, counting
each kind of transition. -/
def auto_update_statuses (now : Int) (appts : List Appointment) : SweepResult :=
  let afterCancel := appts.map (cancelStep now)
  { appointments := afterCancel.map (completeStep now),
    unpaid_cancelled := (appts.filter (sweepCancelPred now)).length,
    past_completed := (afterCancel.filter (sweepCompletePred now)).length }

/-- Errors surfaced by the `confirm_with_slot` action in
`staff.views.appointment_detail`. -/
inductive ConfirmError
  | paymentNotVerified
  | slotNotAvailable
  deriving DecidableEq, Repr

/-- The `confirm_with_slot` action: refuse unless the payment is verified;
look the slot up with `is_available=True` (a slot with the flag cleared is
reported not available); on success attach the slot, set status confirmed and
clear the slot's `is_available` flag. -/
def confirm_with_slot (apt : Appointment) (slot : TimeSlot) :
    Except ConfirmError (Appointment × TimeSlot) :=
  if apt.payment_status ≠ PaymentStatus.verified then
    Except.error ConfirmError.paymentNotVerified
  else if slot.is_available = false then
    Except.error ConfirmError.slotNotAvailable
  else
    let slotTaken := { slot with is_available := false }
    Except.ok ({ apt with time_slot := some slotTaken,
                          status := Status.confirmed }, slotTaken)

/-- The `verify_payment` action: set payment verified and record the
verifier, the timestamp and the notes; scheduling status is untouched. -/
def verify_payment (now : Int) (verifier : Nat) (notes : String)
    (a : Appointment) : Appointment :=
  { a with payment_status := PaymentStatus.verified,
           payment_confirmed_by := some verifier,
           payment_confirmed_at := some now,
           payment_notes := notes }

/-- The `reject_payment` action: set payment failed and store the notes. -/
def reject_payment (notes : String) (a : Appointment) : Appointment :=
  { a with payment_status := PaymentStatus.failed, payment_notes := notes }

/-- The portal payment-proof upload (`AppointmentPaymentView.post`): store
method and proof and set payment submitted. -/
def submit_payment_proof (method : String) (proof : String)
    (a : Appointment) : Appointment :=
  { a with payment_method := method, payment_proof := some proof,
           payment_status := PaymentStatus.submitted }

/-- A freshly created appointment request (model field defaults). -/
def mkAppointment : Appointment :=
  { status := Status.pending, payment_status := PaymentStatus.pending,
    payment_deadline := none, time_slot := none, doctor_notes := "",
    payment_method := "", payment_proof := none,
    payment_confirmed_by := none, payment_confirmed_at := none,
    payment_notes := "" }

end HillsClinic

/-! ## Concrete records used by counterexamples and witnesses -/

namespace HillsClinic

/-- A bookable slot with capacity one, still flagged available. -/
def slotA : TimeSlot :=
  { id := 1, date := 0, startTime := 540, endTime := 600,
    is_available := true, max_bookings := 1 }

/-- A pending appointment already referencing `slotA` (as the staff
`assign_slot` action produces: slot attached, flag untouched). -/
def aptOccupying : Appointment := { mkAppointment with time_slot := some slotA }

/-- An unscheduled appointment whose payment has been verified. -/
def aptVerified : Appointment :=
  { mkAppointment with payment_status := PaymentStatus.verified }

/-- `slotA` after the confirmation path clears its availability flag. -/
def slotATaken : TimeSlot := { slotA with is_available := false }

/-- The appointment record the confirmation path produces from
`aptVerified` and `slotA`. -/
def aptConfirmedA : Appointment :=
  { aptVerified with time_slot := some slotATaken, status := Status.confirmed }

/-- A pending appointment with a past deadline and refunded payment. -/
def aptRefunded : Appointment :=
  { mkAppointment with payment_deadline := some 0,
                       payment_status := PaymentStatus.refunded }

/-- A pending appointment whose unpaid deadline (minute 5) has passed. -/
def aptOverdueUnpaid : Appointment :=
  { mkAppointment with payment_deadline := some 5 }

/-- A verified appointment whose deadline lies far in the past. -/
def aptVerifiedLate : Appointment :=
  { mkAppointment with payment_status := PaymentStatus.verified,
                       payment_deadline := some 0 }

/-- A slot ending at minute 30 of day 0, already taken. -/
def slotPast : TimeSlot :=
  { id := 2, date := 0, startTime := 0, endTime := 30,
    is_available := false, max_bookings := 1 }

/-- A confirmed, slotted, verified appointment whose slot has ended. -/
def aptConfirmedPast : Appointment :=
  { mkAppointment with status := Status.confirmed, time_slot := some slotPast,
                       payment_status := PaymentStatus.verified }

/-- A cancelled appointment whose unpaid deadline has passed. -/
def aptCancelledOld : Appointment :=
  { mkAppointment with status := Status.cancelled, payment_deadline := some 0 }

/-! ## Shared lemmas about the sweep -/

/-- A row rejected by the bulk-cancellation predicate is untouched by it. -/
theorem cancelStep_of_pred_false (now : Int) (b : Appointment)
    (h : sweepCancelPred now b = false) : cancelStep now b = b := by
  simp [cancelStep, h]

/-- A row rejected by the completion predicate is untouched by the pass. -/
theorem completeStep_of_pred_false (now : Int) (b : Appointment)
    (h : sweepCompletePred now b = false) : completeStep now b = b := by
  simp [completeStep, h]

/-- After one sweep step a row never matches the cancellation predicate. -/
theorem sweepStep_cancelPred (now : Int) (a : Appointment) :
    sweepCancelPred now (completeStep now (cancelStep now a)) = false := by
  by_cases hc : sweepCancelPred now a = true
  · simp only [cancelStep, hc, if_true]
    have hcp : sweepCompletePred now { a with status := Status.cancelled } = false := rfl
    rw [completeStep_of_pred_false now _ hcp]
    rfl
  · simp only [Bool.not_eq_true] at hc
    rw [cancelStep_of_pred_false now a hc]
    by_cases hp : sweepCompletePred now a = true
    · simp only [completeStep, hp, if_true]
      rfl
    · simp only [Bool.not_eq_true] at hp
      rw [completeStep_of_pred_false now a hp]
      exact hc

/-- After one sweep step a row never matches the completion predicate. -/
theorem sweepStep_completePred (now : Int) (a : Appointment) :
    sweepCompletePred now (completeStep now (cancelStep now a)) = false := by
  by_cases hc : sweepCancelPred now a = true
  · simp only [cancelStep, hc, if_true]
    have hcp : sweepCompletePred now { a with status := Status.cancelled } = false := rfl
    rw [completeStep_of_pred_false now _ hcp]
    exact hcp
  · simp only [Bool.not_eq_true] at hc
    rw [cancelStep_of_pred_false now a hc]
    by_cases hp : sweepCompletePred now a = true
    · simp only [completeStep, hp, if_true]
      rfl
    · simp only [Bool.not_eq_true] at hp
      rw [completeStep_of_pred_false now a hp]
      exact hp

/-- The sweep acts on the table row by row: its resulting table is the map
of the bulk-cancellation step followed by the completion step. -/
theorem sweep_appointments_map (now : Int) (appts : List Appointment) :
    (auto_update_statuses now appts).appointments =
      appts.map (fun a => completeStep now (cancelStep now a)) := by
  simp [auto_update_statuses, List.map_map, Function.comp]

/-! ## Claims -/

/-- C1, counterexample: a slot that is full (`is_full = true`,
`current_bookings = max_bookings = 1` via a pending appointment attached by
the staff `assign_slot` action, which leaves `is_available` set) is accepted
by the booking-confirmation path, which succeeds instead of failing with a
slot-full error, and the resulting table has `current_bookings`
= `max_bookings + 1`. -/
theorem C1_counterexample :
    is_full [aptOccupying, aptVerified] slotA = true
    ∧ confirm_with_slot aptVerified slotA = Except.ok (aptConfirmedA, slotATaken)
    ∧ (current_bookings [aptOccupying, aptConfirmedA] slotA : Int)
        = slotA.max_bookings + 1 :=
  ⟨by decide, rfl, by decide⟩

/-- C1, amended: the booking-confirmation path succeeds exactly when the
payment is verified and the slot's `is_available` flag is set; a missing
verification yields the payment error and an unavailable slot yields the
slot error.  Slot fullness (`is_full`) is never consulted, so confirmation
into a full-but-available slot is not blocked. -/
theorem C1_confirm_blocked_only_by_availability (apt : Appointment) (slot : TimeSlot) :
    ((∃ r, confirm_with_slot apt slot = Except.ok r) ↔
      (apt.payment_status = PaymentStatus.verified ∧ slot.is_available = true))
    ∧ (apt.payment_status ≠ PaymentStatus.verified →
        confirm_with_slot apt slot = Except.error ConfirmError.paymentNotVerified)
    ∧ (apt.payment_status = PaymentStatus.verified → slot.is_available = false →
        confirm_with_slot apt slot = Except.error ConfirmError.slotNotAvailable) := by
  unfold confirm_with_slot
  refine ⟨?_, ?_, ?_⟩
  · split
    case isTrue h => simp [h]
    case isFalse h =>
      split
      case isTrue h2 => simp [h2]
      case isFalse h2 =>
        simp only [ne_eq, not_not] at h
        simp only [Bool.not_eq_false] at h2
        simp [h, h2]
  · intro hnv
    rw [if_pos hnv]
  · intro hv hna
    rw [if_neg (by simp [hv]), if_pos hna]

/-- Witness for C1: confirming an appointment whose payment is not verified
fails with the payment error. -/
theorem C1_witness :
    confirm_with_slot mkAppointment slotA
      = Except.error ConfirmError.paymentNotVerified :=
  (C1_confirm_blocked_only_by_availability mkAppointment slotA).2.1 (by decide)

/-- C2: `is_payment_overdue` is true exactly when the payment is not
verified, a deadline is set and the clock is past it; an appointment with a
verified payment is never overdue, whatever the deadline.  The embedding is
a pure function of the appointment and the clock, so it mutates nothing. -/
theorem C2_is_payment_overdue_spec (now : Int) (a : Appointment) :
    (is_payment_overdue now a = true ↔
      (a.payment_status ≠ PaymentStatus.verified
        ∧ ∃ d, a.payment_deadline = some d ∧ now > d))
    ∧ (a.payment_status = PaymentStatus.verified →
        is_payment_overdue now a = false) := by
  constructor
  · unfold is_payment_overdue
    split
    · simp_all
    · cases h : a.payment_deadline <;> simp_all
  · intro hv
    simp [is_payment_overdue, hv]

/-- Witness for C2: a verified appointment whose deadline is minute 0 is
still not overdue at minute 1000000. -/
theorem C2_witness : is_payment_overdue 1000000 aptVerifiedLate = false :=
  (C2_is_payment_overdue_spec 1000000 aptVerifiedLate).2 rfl

/-- C3, counterexample: a pending appointment with a past deadline and
`payment_status = refunded` is overdue, so `cancel_if_unpaid` cancels it,
yet the sweep's bulk predicate (which only matches payment status pending,
submitted or failed) skips it and the sweep leaves it untouched with a zero
cancellation count. -/
theorem C3_counterexample :
    aptRefunded.status = Status.pending
    ∧ (cancel_if_unpaid 1 aptRefunded).2 = true
    ∧ (cancel_if_unpaid 1 aptRefunded).1.status = Status.cancelled
    ∧ sweepCancelPred 1 aptRefunded = false
    ∧ (auto_update_statuses 1 [aptRefunded]).appointments = [aptRefunded]
    ∧ (auto_update_statuses 1 [aptRefunded]).unpaid_cancelled = 0 := by decide

/-- C3, amended: for appointments with status pending or confirmed whose
payment status is not refunded, the sweep's bulk predicate matches exactly
when `cancel_if_unpaid` would cancel, and the bulk update produces the same
record as `cancel_if_unpaid` except that it does not append the audit note
to `doctor_notes`. -/
theorem C3_bulk_cancel_vs_cancel_if_unpaid (now : Int) (a : Appointment)
    (hs : a.status = Status.pending ∨ a.status = Status.confirmed)
    (hr : a.payment_status ≠ PaymentStatus.refunded) :
    (sweepCancelPred now a = true ↔ (cancel_if_unpaid now a).2 = true)
    ∧ cancelStep now a =
        { (cancel_if_unpaid now a).1 with doctor_notes := a.doctor_notes } := by
  have hnotc : a.status ≠ Status.cancelled := by
    rcases hs with h | h <;> simp [h]
  have hnotd : a.status ≠ Status.completed := by
    rcases hs with h | h <;> simp [h]
  have hov : sweepCancelPred now a = true ↔ is_payment_overdue now a = true := by
    cases hpay : a.payment_status
    case verified => simp [sweepCancelPred, is_payment_overdue, hpay]
    case refunded => exact absurd hpay hr
    all_goals
      rcases hs with h | h <;>
        cases hd : a.payment_deadline <;>
          simp [sweepCancelPred, is_payment_overdue, hpay, hd, h, gt_iff_lt]
  constructor
  · rw [hov]
    unfold cancel_if_unpaid
    split
    case isTrue hcond => simp [hcond.1]
    case isFalse hcond =>
      have hno : is_payment_overdue now a ≠ true :=
        fun hovd => hcond ⟨hovd, hnotc, hnotd⟩
      simp [hno]
  · unfold cancelStep cancel_if_unpaid
    by_cases hcond : is_payment_overdue now a = true
    · rw [if_pos (hov.mpr hcond), if_pos ⟨hcond, hnotc, hnotd⟩]
    · have h1 : sweepCancelPred now a ≠ true := fun hp => hcond (hov.mp hp)
      rw [if_neg h1, if_neg (fun hcc => hcond hcc.1)]

/-- Witness for C3 at a pending, unpaid, overdue appointment. -/
theorem C3_witness :
    (sweepCancelPred 10 aptOverdueUnpaid = true ↔
      (cancel_if_unpaid 10 aptOverdueUnpaid).2 = true)
    ∧ cancelStep 10 aptOverdueUnpaid =
        { (cancel_if_unpaid 10 aptOverdueUnpaid).1 with
            doctor_notes := aptOverdueUnpaid.doctor_notes } :=
  C3_bulk_cancel_vs_cancel_if_unpaid 10 aptOverdueUnpaid (Or.inl rfl) (by decide)

/-- C4, counterexample: the `verify_payment` action succeeds on an
appointment whose payment status is pending (not submitted): it sets the
payment verified and records the verifier and timestamp instead of failing
with an invalid-transition error. -/
theorem C4_counterexample :
    mkAppointment.payment_status = PaymentStatus.pending
    ∧ (verify_payment 0 7 "ok" mkAppointment).payment_status = PaymentStatus.verified
    ∧ (verify_payment 0 7 "ok" mkAppointment).payment_confirmed_by = some 7
    ∧ (verify_payment 0 7 "ok" mkAppointment).payment_confirmed_at = some 0 := by
  decide

/-- C4, amended: `verify_payment` succeeds for every payment status (the
view checks no guard); it sets the payment verified, records the verifier,
timestamp and notes, and leaves the scheduling status, slot, deadline and
doctor notes unchanged. -/
theorem C4_verify_payment_unguarded (now : Int) (verifier : Nat) (notes : String)
    (a : Appointment) :
    (verify_payment now verifier notes a).payment_status = PaymentStatus.verified
    ∧ (verify_payment now verifier notes a).payment_confirmed_by = some verifier
    ∧ (verify_payment now verifier notes a).payment_confirmed_at = some now
    ∧ (verify_payment now verifier notes a).payment_notes = notes
    ∧ (verify_payment now verifier notes a).status = a.status
    ∧ (verify_payment now verifier notes a).time_slot = a.time_slot
    ∧ (verify_payment now verifier notes a).payment_deadline = a.payment_deadline
    ∧ (verify_payment now verifier notes a).doctor_notes = a.doctor_notes :=
  ⟨rfl, rfl, rfl, rfl, rfl, rfl, rfl, rfl⟩

/-- C5: `cancel_if_unpaid` returns true exactly when the payment is overdue
and the status is neither cancelled nor completed; on true it cancels and
appends the single audit note, on false it changes nothing; and immediately
repeating the call on its own output is always a no-op returning false. -/
theorem C5_cancel_if_unpaid_spec (now : Int) (a : Appointment) :
    ((cancel_if_unpaid now a).2 = true ↔
      (is_payment_overdue now a = true
        ∧ a.status ≠ Status.cancelled ∧ a.status ≠ Status.completed))
    ∧ ((cancel_if_unpaid now a).2 = true →
        (cancel_if_unpaid now a).1 =
          { a with status := Status.cancelled,
                   doctor_notes := a.doctor_notes ++ autoCancelNote })
    ∧ ((cancel_if_unpaid now a).2 = false → (cancel_if_unpaid now a).1 = a)
    ∧ cancel_if_unpaid now ((cancel_if_unpaid now a).1) =
        ((cancel_if_unpaid now a).1, false) := by
  unfold cancel_if_unpaid
  split
  case isTrue h =>
    refine ⟨by simp [h], fun _ => rfl, by simp, ?_⟩
    rw [if_neg]
    simp
  case isFalse h =>
    refine ⟨by simpa using h, by simp, fun _ => rfl, ?_⟩
    rfl

/-- Witness for C5: cancelling an overdue unpaid appointment yields the
cancelled record with exactly one appended audit note. -/
theorem C5_witness :
    (cancel_if_unpaid 10 aptOverdueUnpaid).1 =
      { aptOverdueUnpaid with
          status := Status.cancelled,
          doctor_notes := aptOverdueUnpaid.doctor_notes ++ autoCancelNote } :=
  (C5_cancel_if_unpaid_spec 10 aptOverdueUnpaid).2.1 (by decide)

/-- C6, counterexample: from a verified appointment, the `reject_payment`
action moves the payment status to failed and the portal payment-proof
upload moves it to submitted, so verified is not terminal. -/
theorem C6_counterexample :
    aptVerified.payment_status = PaymentStatus.verified
    ∧ (reject_payment "rejected" aptVerified).payment_status = PaymentStatus.failed
    ∧ (submit_payment_proof "easypaisa" "shot.png" aptVerified).payment_status
        = PaymentStatus.submitted := by decide

/-- C6, amended: the sweep never changes any appointment's payment status
(so it preserves verified), but `reject_payment` sets the payment status to
failed and the payment-proof upload sets it to submitted unconditionally,
from any state including verified. -/
theorem C6_verified_only_preserved_by_sweep (now : Int) (appts : List Appointment)
    (notes method pf : String) (a : Appointment) :
    ((auto_update_statuses now appts).appointments.map Appointment.payment_status
       = appts.map Appointment.payment_status)
    ∧ (reject_payment notes a).payment_status = PaymentStatus.failed
    ∧ (submit_payment_proof method pf a).payment_status = PaymentStatus.submitted := by
  refine ⟨?_, rfl, rfl⟩
  rw [sweep_appointments_map, List.map_map]
  refine List.map_congr_left ?_
  intro x _
  have h1 : (cancelStep now x).payment_status = x.payment_status := by
    unfold cancelStep; split <;> rfl
  simp only [Function.comp_apply]
  unfold completeStep
  split
  · exact h1
  · exact h1

/-- C7: the sweep is idempotent at a fixed clock: running it again on its
own output changes no appointment and returns both counts as zero. -/
theorem C7_sweep_idempotent (now : Int) (appts : List Appointment) :
    auto_update_statuses now ((auto_update_statuses now appts).appointments) =
      { appointments := (auto_update_statuses now appts).appointments,
        unpaid_cancelled := 0, past_completed := 0 } := by
  rw [sweep_appointments_map]
  have hfix : ∀ b ∈ appts.map (fun a => completeStep now (cancelStep now a)),
      cancelStep now b = b := by
    intro b hb
    rcases List.mem_map.mp hb with ⟨a, _, rfl⟩
    exact cancelStep_of_pred_false now _ (sweepStep_cancelPred now a)
  have hfix2 : ∀ b ∈ appts.map (fun a => completeStep now (cancelStep now a)),
      completeStep now b = b := by
    intro b hb
    rcases List.mem_map.mp hb with ⟨a, _, rfl⟩
    exact completeStep_of_pred_false now _ (sweepStep_completePred now a)
  have hmapc : (appts.map (fun a => completeStep now (cancelStep now a))).map (cancelStep now)
      = appts.map (fun a => completeStep now (cancelStep now a)) := by
    conv_rhs => rw [show appts.map (fun a => completeStep now (cancelStep now a)) =
      (appts.map (fun a => completeStep now (cancelStep now a))).map id from
      (List.map_id _).symm]
    exact List.map_congr_left hfix
  unfold auto_update_statuses
  rw [hmapc]
  have hfilc : (appts.map (fun a => completeStep now (cancelStep now a))).filter
      (sweepCancelPred now) = [] := by
    refine List.filter_eq_nil_iff.mpr ?_
    intro b hb
    rcases List.mem_map.mp hb with ⟨a, _, rfl⟩
    simp [sweepStep_cancelPred now a]
  have hfilp : (appts.map (fun a => completeStep now (cancelStep now a))).filter
      (sweepCompletePred now) = [] := by
    refine List.filter_eq_nil_iff.mpr ?_
    intro b hb
    rcases List.mem_map.mp hb with ⟨a, _, rfl⟩
    simp [sweepStep_completePred now a]
  have hmapp : (appts.map (fun a => completeStep now (cancelStep now a))).map (completeStep now)
      = appts.map (fun a => completeStep now (cancelStep now a)) := by
    conv_rhs => rw [show appts.map (fun a => completeStep now (cancelStep now a)) =
      (appts.map (fun a => completeStep now (cancelStep now a))).map id from
      (List.map_id _).symm]
    exact List.map_congr_left hfix2
  rw [hfilc]
  simp only [hmapp, hfilp, List.length_nil]

/-- C8: `is_past_appointment` is true exactly when a slot is attached and
the clock is past the slot's end plus the one-hour grace window;
`complete_if_past` returns true exactly when the status is confirmed and the
appointment is past, in which case it only sets the status to completed, and
otherwise it changes nothing. -/
theorem C8_past_and_complete_spec (now : Int) (a : Appointment) :
    (is_past_appointment now a = true ↔
      ∃ s, a.time_slot = some s ∧ now > slotEndDatetime s + graceMinutes)
    ∧ ((complete_if_past now a).2 = true ↔
        (a.status = Status.confirmed ∧ is_past_appointment now a = true))
    ∧ ((complete_if_past now a).2 = true →
        (complete_if_past now a).1 = { a with status := Status.completed })
    ∧ ((complete_if_past now a).2 = false → (complete_if_past now a).1 = a) := by
  refine ⟨?_, ?_⟩
  · unfold is_past_appointment
    cases h : a.time_slot <;> simp_all
  · unfold complete_if_past
    split
    case isTrue h => exact ⟨by simp [h], fun _ => rfl, by simp⟩
    case isFalse h => exact ⟨by simpa using h, by simp, fun _ => rfl⟩

/-- Witness for C8: a confirmed appointment whose slot ended at minute 30 is
completed at minute 2000. -/
theorem C8_witness :
    (complete_if_past 2000 aptConfirmedPast).1 =
      { aptConfirmedPast with status := Status.completed } :=
  (C8_past_and_complete_spec 2000 aptConfirmedPast).2.2.1 (by decide)

/-- C9: a cancelled or completed appointment is never changed by
`cancel_if_unpaid`, by `complete_if_past`, or by either pass of the sweep
(whose table action is exactly the row-wise composition of the two sweep
steps, each of which fixes it). -/
theorem C9_terminal_never_auto_transitioned (now : Int) (a : Appointment)
    (h : a.status = Status.cancelled ∨ a.status = Status.completed) :
    (cancel_if_unpaid now a).1 = a
    ∧ (complete_if_past now a).1 = a
    ∧ completeStep now (cancelStep now a) = a
    ∧ ∀ appts : List Appointment,
        (auto_update_statuses now appts).appointments =
          appts.map (fun x => completeStep now (cancelStep now x)) := by
  have hcp : sweepCancelPred now a = false := by
    rcases h with h | h <;> simp [sweepCancelPred, h]
  have hpp : sweepCompletePred now a = false := by
    rcases h with h | h <;> simp [sweepCompletePred, h]
  refine ⟨?_, ?_, ?_, fun appts => sweep_appointments_map now appts⟩
  · unfold cancel_if_unpaid
    rw [if_neg]
    rcases h with h | h <;> simp [h]
  · unfold complete_if_past
    rw [if_neg]
    rcases h with h | h <;> simp [h]
  · rw [cancelStep_of_pred_false now a hcp, completeStep_of_pred_false now a hpp]

/-- Witness for C9: a cancelled overdue appointment is fixed by every
automatic transition. -/
theorem C9_witness :
    (cancel_if_unpaid 5 aptCancelledOld).1 = aptCancelledOld
    ∧ (complete_if_past 5 aptCancelledOld).1 = aptCancelledOld
    ∧ completeStep 5 (cancelStep 5 aptCancelledOld) = aptCancelledOld :=
  ⟨(C9_terminal_never_auto_transitioned 5 aptCancelledOld (Or.inl rfl)).1,
   (C9_terminal_never_auto_transitioned 5 aptCancelledOld (Or.inl rfl)).2.1,
   (C9_terminal_never_auto_transitioned 5 aptCancelledOld (Or.inl rfl)).2.2.1⟩

/-- C10: every successful run of the booking-confirmation path consumed a
slot whose `is_available` flag was set, clears that flag on the returned
slot (whose capacity is unchanged), attaches the slot and confirms the
appointment; any later confirmation attempt against the returned slot fails,
whatever `max_bookings` says, so the path assigns each slot at most once. -/
theorem C10_confirmation_single_use_slot (apt : Appointment) (slot : TimeSlot)
    (apt2 : Appointment) (slotOut : TimeSlot)
    (h : confirm_with_slot apt slot = Except.ok (apt2, slotOut)) :
    slot.is_available = true
    ∧ slotOut.is_available = false
    ∧ apt2.time_slot = some slotOut
    ∧ apt2.status = Status.confirmed
    ∧ slotOut.max_bookings = slot.max_bookings
    ∧ ∀ other : Appointment,
        confirm_with_slot other slotOut = Except.error ConfirmError.paymentNotVerified
        ∨ confirm_with_slot other slotOut = Except.error ConfirmError.slotNotAvailable := by
  unfold confirm_with_slot at h
  by_cases h1 : apt.payment_status ≠ PaymentStatus.verified
  · rw [if_pos h1] at h
    exact absurd h (by simp)
  · rw [if_neg h1] at h
    by_cases h2 : slot.is_available = false
    · rw [if_pos h2] at h
      exact absurd h (by simp)
    · rw [if_neg h2] at h
      simp only [Bool.not_eq_false] at h2
      simp only [Except.ok.injEq, Prod.mk.injEq] at h
      obtain ⟨ha, hs⟩ := h
      subst ha
      subst hs
      refine ⟨h2, rfl, rfl, rfl, rfl, ?_⟩
      intro other
      by_cases ho : other.payment_status ≠ PaymentStatus.verified
      · left
        unfold confirm_with_slot
        rw [if_pos ho]
      · right
        unfold confirm_with_slot
        rw [if_neg ho, if_pos rfl]

/-- Witness for C10 at the concrete confirmation of `aptVerified` into
`slotA`: the flag flips and a second confirmation attempt errors. -/
theorem C10_witness :
    slotA.is_available = true
    ∧ slotATaken.is_available = false
    ∧ aptConfirmedA.time_slot = some slotATaken
    ∧ aptConfirmedA.status = Status.confirmed
    ∧ (confirm_with_slot aptOccupying slotATaken
          = Except.error ConfirmError.paymentNotVerified
        ∨ confirm_with_slot aptOccupying slotATaken
          = Except.error ConfirmError.slotNotAvailable) :=
  have h := C10_confirmation_single_use_slot aptVerified slotA aptConfirmedA slotATaken rfl
  ⟨h.1, h.2.1, h.2.2.1, h.2.2.2.1, h.2.2.2.2.2 aptOccupying⟩

end HillsClinic
